import Mathlib

set_option maxRecDepth 100000

/-!
Shallow embedding of the transaction-extraction core of the Bank_statement
repository (source files `app.py` and `maybank.py`).

Conventions of the embedding:
* Python strings are Lean `String`s; most parsing work happens on `List Char`.
  The character classes `\d`, `\s`, `[A-Za-z]`, `.` of the source regexes are
  modelled over their ASCII meaning (all inputs handled by the claims are
  ASCII).
* Python `float` amounts always come from strings shaped `[0-9,]+\.\d{2}`;
  such a float is determined exactly by the integer number of cents, so
  amounts are carried as cents (`Nat`).  A float is `0.0` iff its cents
  value is `0`.
* `datetime.now().year` is an explicit `nowYear : Nat` parameter of the
  year-fixing pass.
* The regex searches of `maybank.py` are embedded as executable backtracking
  matchers that enumerate the choice points of the source patterns in the
  engine's order: greedy pieces (`\s+`, `\s*`, `[0-9,]+`) try longer
  prefixes first, the lazy piece `(.+?)` tries shorter prefixes first, and
  `search` tries start positions left to right.
-/

/-- Decimal value of a digit character (only used on `isDigit` characters). -/
def dval (c : Char) : Nat := c.toNat - 48

/-- Python `\s` (ASCII part): space, tab, newline, carriage return, vertical
tab, form feed. -/
def isPySpace (c : Char) : Bool :=
  c == ' ' || c == '\t' || c == '\n' || c == '\r' || c == '\x0b' || c == '\x0c'

/-- Length of the maximal whitespace prefix (the text a greedy `\s+`/`\s*`
first grabs). -/
def wsRun (cs : List Char) : Nat := (cs.takeWhile isPySpace).length

/-- Length of the maximal prefix of characters matchable by `.`
(anything but a newline). -/
def dotRun (cs : List Char) : Nat := (cs.takeWhile (fun c => c != '\n')).length

/-- Character class `[0-9,]` of the amount/balance groups. -/
def isAmtChar (c : Char) : Bool := c.isDigit || c == ','

/-- Length of the maximal `[0-9,]` prefix. -/
def amtRun (cs : List Char) : Nat := (cs.takeWhile isAmtChar).length

/-- `n, n-1, ..., 1`: the order in which a greedy `+` piece hands candidate
lengths to the rest of the pattern. -/
def descList : Nat → List Nat
  | 0 => []
  | n + 1 => (n + 1) :: descList n

/-- `n, n-1, ..., 0`: candidate lengths of a greedy `*` piece. -/
def descList0 (n : Nat) : List Nat := n :: descList n

/-- `1, 2, ..., n`: candidate lengths of the lazy `(.+?)` piece. -/
def ascList (n : Nat) : List Nat := (List.range n).map (· + 1)

/-- First choice (in the given order) on which the continuation succeeds:
the backtracking primitive of the embedded matchers. -/
def firstSome {α : Type} (ks : List Nat) (f : Nat → Option α) : Option α :=
  ks.findSome? f

/-- Splits a character list at every occurrence of `sep`
(like Python `str.split(sep)`: `n` separators give `n+1` pieces). -/
def splitOnChar (sep : Char) : List Char → List (List Char)
  | [] => [[]]
  | c :: cs =>
    match splitOnChar sep cs with
    | [] => [[]]
    | p :: ps => if c = sep then [] :: p :: ps else (c :: p) :: ps

/-- Python `str.splitlines` (restricted to `\n` line breaks — the only break
character occurring in the embedded inputs): no trailing empty line for a
trailing newline, and `[]` on the empty string. -/
def splitlinesGo : List Char → List Char → List (List Char)
  | acc, [] => [acc.reverse]
  | acc, ['\n'] => [acc.reverse]
  | acc, '\n' :: rest => acc.reverse :: splitlinesGo [] rest
  | acc, c :: rest => splitlinesGo (c :: acc) rest

/-- `str.splitlines` on a string, producing the lines as strings. -/
def pySplitlines (s : String) : List String :=
  match s.data with
  | [] => []
  | cs => (splitlinesGo [] cs).map (fun l => ⟨l⟩)

/-- Python `str.strip()` on a character list (ASCII whitespace). -/
def pyStripL (cs : List Char) : List Char :=
  ((cs.dropWhile isPySpace).reverse.dropWhile isPySpace).reverse

/-- Python `str.strip()` on a string. -/
def pyStrip (s : String) : String := ⟨pyStripL s.data⟩

/-- Consume the literal `lit` from the front of `cs`, returning the rest. -/
def dropLit : List Char → List Char → Option (List Char)
  | [], cs => some cs
  | _ :: _, [] => none
  | l :: ls, c :: cs => if c = l then dropLit ls cs else none

/-- Python `pat in s` on character lists: `pat` occurs as a contiguous
substring. -/
def hasSub (pat : List Char) : List Char → Bool
  | [] => (dropLit pat []).isSome
  | c :: rest => (dropLit pat (c :: rest)).isSome || hasSub pat rest

/-- Value of a digit-character list read most significant digit first. -/
def compVal (cs : List Char) : Nat := cs.foldl (fun a c => 10 * a + dval c) 0

/-- Two zero-padded decimal digits of `n < 100` (C `strftime` `%d`/`%m`
padding; every day/month printed by the code is below 100 because it came
out of `strptime` validation). -/
def pad2chars (n : Nat) : List Char := [Nat.digitChar (n / 10), Nat.digitChar (n % 10)]

/-- Two-digit zero-padded rendering, e.g. `pad2 7 = "07"`. -/
def pad2 (n : Nat) : String := ⟨pad2chars n⟩

/-- Decimal rendering of a year (C `strftime` `%Y` on glibc prints the plain
decimal number). -/
def yearChars (n : Nat) : List Char := Nat.toDigits 10 n

/-- `datetime.strftime("%d/%m/%Y")`. -/
def fmtDMY (d m y : Nat) : String :=
  ⟨pad2chars d ++ '/' :: pad2chars m ++ '/' :: yearChars y⟩

/-- A transaction record (the dict built by the recognizers in `maybank.py`;
`app.py` later sets `source_file`).  Monetary fields are exact cents. -/
structure Tx where
  date : String
  description : String
  debit : Nat
  credit : Nat
  balance : Nat
  page : Nat
  source_file : Option String
deriving DecidableEq

/-!
## Model of `datetime.strptime` for the six formats tried by
`infer_and_fix_years` (`app.py` lines 97-120).

CPython compiles each format to a regex (`_strptime.TimeRE`):
`%d ↦ 3[01]|[12]\d|0[1-9]|[1-9]`, `%m ↦ 1[0-2]|0[1-9]|[1-9]`,
`%y ↦ \d\d`, `%Y ↦ \d\d\d\d`, matched against the whole input
(trailing text raises `ValueError`), and then builds a `datetime`, which
additionally checks the day against the month length (year `1900` is
implied when the format has no year directive).  Because the separator
characters `/` and `-` can occur in none of the component regexes, a format
matches iff splitting the input at the separator yields exactly one
component per directive and each component is fully matched by its
directive's regex.
-/

/-- The `%d` component regex `3[01]|[12]\d|0[1-9]|[1-9]`: a digit string of
length two with value `1..31`, or of length one with value `1..9`. -/
def dayComp (cs : List Char) : Option Nat :=
  let v := compVal cs
  if cs.all Char.isDigit ∧
      ((cs.length = 2 ∧ 1 ≤ v ∧ v ≤ 31) ∨ (cs.length = 1 ∧ 1 ≤ v ∧ v ≤ 9)) then
    some v
  else none

/-- The `%m` component regex `1[0-2]|0[1-9]|[1-9]`. -/
def monthComp (cs : List Char) : Option Nat :=
  let v := compVal cs
  if cs.all Char.isDigit ∧
      ((cs.length = 2 ∧ 1 ≤ v ∧ v ≤ 12) ∨ (cs.length = 1 ∧ 1 ≤ v ∧ v ≤ 9)) then
    some v
  else none

/-- The `%Y` component regex `\d\d\d\d` (the year must also be at least
`datetime.MINYEAR = 1`). -/
def year4Comp (cs : List Char) : Option Nat :=
  let v := compVal cs
  if cs.all Char.isDigit ∧ cs.length = 4 ∧ 1 ≤ v then some v else none

/-- The `%y` component regex `\d\d`, with CPython's century rule:
`00..68 ↦ 2000..2068`, `69..99 ↦ 1969..1999`. -/
def year2Comp (cs : List Char) : Option Nat :=
  let v := compVal cs
  if cs.all Char.isDigit ∧ cs.length = 2 then
    some (if v ≤ 68 then 2000 + v else 1900 + v)
  else none

/-- Gregorian leap year (as used by `datetime`). -/
def isLeap (y : Nat) : Bool := y % 4 == 0 && (y % 100 != 0 || y % 400 == 0)

/-- Length of month `m` of year `y` (as validated by the `datetime`
constructor). -/
def daysInMonth (y m : Nat) : Nat :=
  if m = 2 then (if isLeap y then 29 else 28)
  else if m = 4 ∨ m = 6 ∨ m = 9 ∨ m = 11 then 30
  else 31

/-- `datetime.strptime(s, "%d<sep>%m<sep>%Y")`. -/
def strptimeDMY (sep : Char) (s : String) : Option (Nat × Nat × Nat) :=
  match splitOnChar sep s.data with
  | [dc, mc, yc] =>
    (dayComp dc).bind fun d =>
      (monthComp mc).bind fun m =>
        (year4Comp yc).bind fun y =>
          if d ≤ daysInMonth y m then some (d, m, y) else none
  | _ => none

/-- `datetime.strptime(s, "%d<sep>%m<sep>%y")`. -/
def strptimeDMy (sep : Char) (s : String) : Option (Nat × Nat × Nat) :=
  match splitOnChar sep s.data with
  | [dc, mc, yc] =>
    (dayComp dc).bind fun d =>
      (monthComp mc).bind fun m =>
        (year2Comp yc).bind fun y =>
          if d ≤ daysInMonth y m then some (d, m, y) else none
  | _ => none

/-- `datetime.strptime(s, "%d<sep>%m")` (implied year 1900, so `29/02` is
rejected: 1900 is not a leap year). -/
def strptimeDM (sep : Char) (s : String) : Option (Nat × Nat) :=
  match splitOnChar sep s.data with
  | [dc, mc] =>
    (dayComp dc).bind fun d =>
      (monthComp mc).bind fun m =>
        if d ≤ daysInMonth 1900 m then some (d, m) else none
  | _ => none

/-- The format loop of `infer_and_fix_years`: try
`"%d/%m/%Y", "%d-%m-%Y", "%d/%m/%y", "%d-%m-%y", "%d/%m", "%d-%m"` in that
order and stop at the first success.  The result is the parsed day and
month, plus the parsed year when the matching format carried one. -/
def parseDateFormats (s : String) : Option (Nat × Nat × Option Nat) :=
  match strptimeDMY '/' s with
  | some r => some (r.1, r.2.1, some r.2.2)
  | none =>
  match strptimeDMY '-' s with
  | some r => some (r.1, r.2.1, some r.2.2)
  | none =>
  match strptimeDMy '/' s with
  | some r => some (r.1, r.2.1, some r.2.2)
  | none =>
  match strptimeDMy '-' s with
  | some r => some (r.1, r.2.1, some r.2.2)
  | none =>
  match strptimeDM '/' s with
  | some r => some (r.1, r.2, none)
  | none =>
  match strptimeDM '-' s with
  | some r => some (r.1, r.2, none)
  | none => none

/-- The rollover decision of `infer_and_fix_years` (`app.py` line 106):
`if prev_month and month < prev_month and prev_month >= 11 and month <= 2`
increments the assigned year, otherwise the year is kept.  `prev_month` is
`None` before any date was seen (Python truthiness also rejects `0`). -/
def advanceYear (prevMonth : Option Nat) (assignedYear month : Nat) : Nat :=
  match prevMonth with
  | none => assignedYear
  | some p =>
    if p ≠ 0 ∧ month < p ∧ 11 ≤ p ∧ month ≤ 2 then assignedYear + 1 else assignedYear

/-- One iteration of the `for tx in transactions` loop of
`infer_and_fix_years`: state `(prev_month, assigned_year)`.  A date matching
no format leaves both the record and the state untouched. -/
def fixStep (st : Option Nat × Nat) (tx : Tx) : (Option Nat × Nat) × Tx :=
  match parseDateFormats tx.date with
  | none => (st, tx)
  | some (d, m, none) =>
    let y := advanceYear st.1 st.2 m
    ((some m, y), { tx with date := fmtDMY d m y })
  | some (d, m, some y) => ((some m, y), { tx with date := fmtDMY d m y })

/-- Threads the resolver state through a transaction list, collecting the
rewritten records in order. -/
def mapAccumTx (st : Option Nat × Nat) : List Tx → List Tx
  | [] => []
  | t :: ts =>
    let r := fixStep st t
    r.2 :: mapAccumTx r.1 ts

/-- `infer_and_fix_years` (`app.py` lines 79-124) with the wall-clock year
`datetime.now().year` made explicit: initial state is
`prev_month = None`, `assigned_year = nowYear`. -/
def infer_and_fix_years (nowYear : Nat) (transactions : List Tx) : List Tx :=
  mapAccumTx (none, nowYear) transactions

/-!
## `maybank.py`
-/

/-- One anchored attempt of `STATEMENT_YEAR_PATTERN`
(`STATEMENT DATE\s*:\s*\d{2}/\d{2}/(\d{2})`) at the front of `cs`,
returning the captured two-digit year value. -/
def styAt (cs : List Char) : Option Nat :=
  (dropLit "STATEMENT DATE".data cs).bind fun r1 =>
    firstSome (descList0 (wsRun r1)) fun k1 =>
      match r1.drop k1 with
      | ':' :: r2 =>
        firstSome (descList0 (wsRun r2)) fun k2 =>
          match r2.drop k2 with
          | a1 :: a2 :: s1 :: b1 :: b2 :: s2 :: y1 :: y2 :: _ =>
            if a1.isDigit && a2.isDigit && s1 == '/' && b1.isDigit && b2.isDigit
                && s2 == '/' && y1.isDigit && y2.isDigit then
              some (10 * dval y1 + dval y2)
            else none
          | _ => none
      | _ => none

/-- `STATEMENT_YEAR_PATTERN.search`: leftmost start position whose anchored
attempt succeeds. -/
def stySearchAux : List Char → Option Nat
  | [] => none
  | c :: cs =>
    match styAt (c :: cs) with
    | some y => some y
    | none => stySearchAux cs

/-- `extract_statement_year(text, fallback_year)` (`maybank.py` lines
12-22): the declared two-digit year is expanded with `f"20{yy:02d}"`,
otherwise the fallback is returned unchanged. -/
def extract_statement_year (text fallback : String) : String :=
  match stySearchAux text.data with
  | none => fallback
  | some yy => "20" ++ pad2 yy

/-- Matches `[0-9,]+\.\d{2}` at the front of `cs` (greedy run, then the
literal dot and two digits), returning the matched text and the rest. -/
def amountTail (cs : List Char) : Option (List Char × List Char) :=
  firstSome (descList (amtRun cs)) fun k =>
    match cs.drop k with
    | '.' :: b1 :: b2 :: rest =>
      if b1.isDigit && b2.isDigit then
        some (cs.take k ++ '.' :: [b1, b2], rest)
      else none
    | _ => none

/-- Matches the MTASB money tail `([0-9,]+\.\d{2})([+-])\s+([0-9,]+\.\d{2})`
(sign adjacent to the amount), returning (amount, sign, balance). -/
def mtasbMoney (cs : List Char) : Option (List Char × Char × List Char) :=
  (amountTail cs).bind fun p =>
    match p.2 with
    | sg :: r2 =>
      if sg == '+' || sg == '-' then
        firstSome (descList (wsRun r2)) fun kw =>
          (amountTail (r2.drop kw)).map fun q => (p.1, sg, q.1)
      else none
    | [] => none

/-- Matches `\s+(.+?)\s+` followed by the MTASB money tail, returning
(description, amount, sign, balance). -/
def mtasbAfterDate (cs : List Char) : Option (List Char × List Char × Char × List Char) :=
  firstSome (descList (wsRun cs)) fun k1 =>
    let r1 := cs.drop k1
    firstSome (ascList (dotRun r1)) fun kd =>
      let r2 := r1.drop kd
      firstSome (descList (wsRun r2)) fun kw =>
        (mtasbMoney (r2.drop kw)).map fun t => (r1.take kd, t)

/-- The five captured groups of `PATTERN_MAYBANK_MTASB`. -/
structure MtasbG where
  dateRaw : List Char
  desc : List Char
  amountRaw : List Char
  sign : Char
  balanceRaw : List Char
deriving DecidableEq

/-- One anchored attempt of `PATTERN_MAYBANK_MTASB`
(`(\d{2}/\d{2})\s+(.+?)\s+([0-9,]+\.\d{2})([+-])\s+([0-9,]+\.\d{2})`). -/
def mtasbAt (cs : List Char) : Option MtasbG :=
  match cs with
  | d1 :: d2 :: s :: d3 :: d4 :: rest =>
    if d1.isDigit && d2.isDigit && s == '/' && d3.isDigit && d4.isDigit then
      (mtasbAfterDate rest).map fun t =>
        ⟨[d1, d2, '/', d3, d4], t.1, t.2.1, t.2.2.1, t.2.2.2⟩
    else none
  | _ => none

/-- `PATTERN_MAYBANK_MTASB.search`. -/
def mtasbSearchAux : List Char → Option MtasbG
  | [] => none
  | c :: cs =>
    match mtasbAt (c :: cs) with
    | some g => some g
    | none => mtasbSearchAux cs

/-- `parse_line_maybank_mtasb(line, page_num, year)` (`maybank.py` lines
38-61): on a pattern match, split the `dd/dd` group into day and month,
convert the amounts, route the amount by the sign marker, and build the
record with `f"{year}-{month}-{day}"`. -/
def parse_line_maybank_mtasb (line : String) (page_num : Nat) (year : String) : Option Tx :=
  match mtasbSearchAux line.data with
  | none => none
  | some g =>
    match splitOnChar '/' g.dateRaw with
    | [day, month] =>
      let amount := compVal (g.amountRaw.filter fun c => c.isDigit)
      let balance := compVal (g.balanceRaw.filter fun c => c.isDigit)
      some { date := year ++ "-" ++ (⟨month⟩ : String) ++ "-" ++ (⟨day⟩ : String)
             description := ⟨pyStripL g.desc⟩
             debit := if g.sign = '-' then amount else 0
             credit := if g.sign = '+' then amount else 0
             balance := balance
             page := page_num
             source_file := none }
    | _ => none

/-- `MONTH_MAP` (`maybank.py` lines 77-81). -/
def MONTH_MAP : String → Option String
  | "Jan" => some "01"
  | "Feb" => some "02"
  | "Mar" => some "03"
  | "Apr" => some "04"
  | "May" => some "05"
  | "Jun" => some "06"
  | "Jul" => some "07"
  | "Aug" => some "08"
  | "Sep" => some "09"
  | "Oct" => some "10"
  | "Nov" => some "11"
  | "Dec" => some "12"
  | _ => none

/-- Python `str.title()` on a three-letter alphabetic token: first letter
upper-cased, the rest lower-cased. -/
def title3 (a b c : Char) : String := ⟨[a.toUpper, b.toLower, c.toLower]⟩

/-- Matches the MBB money tail `([0-9,]+\.\d{2})\s+([+-])\s+([0-9,]+\.\d{2})`
(sign separated from the amount by whitespace). -/
def mbbMoney (cs : List Char) : Option (List Char × Char × List Char) :=
  (amountTail cs).bind fun p =>
    firstSome (descList (wsRun p.2)) fun k1 =>
      match p.2.drop k1 with
      | sg :: r2 =>
        if sg == '+' || sg == '-' then
          firstSome (descList (wsRun r2)) fun k2 =>
            (amountTail (r2.drop k2)).map fun q => (p.1, sg, q.1)
        else none
      | [] => none

/-- Matches `\s+(.+?)\s+` followed by the MBB money tail. -/
def mbbAfterYear (cs : List Char) : Option (List Char × List Char × Char × List Char) :=
  firstSome (descList (wsRun cs)) fun k1 =>
    let r1 := cs.drop k1
    firstSome (ascList (dotRun r1)) fun kd =>
      let r2 := r1.drop kd
      firstSome (descList (wsRun r2)) fun kw =>
        (mbbMoney (r2.drop kw)).map fun t => (r1.take kd, t)

/-- The captured groups of `PATTERN_MAYBANK_MBB`: the two day digits, the
three month letters, the four year digits, then description, amount, sign
and balance. -/
structure MbbG where
  day1 : Char
  day2 : Char
  mon1 : Char
  mon2 : Char
  mon3 : Char
  yr1 : Char
  yr2 : Char
  yr3 : Char
  yr4 : Char
  desc : List Char
  amountRaw : List Char
  sign : Char
  balanceRaw : List Char
deriving DecidableEq

/-- One anchored attempt of `PATTERN_MAYBANK_MBB`
(`(\d{2})\s+([A-Za-z]{3})\s+(\d{4})\s+(.+?)\s+([0-9,]+\.\d{2})\s+([+-])\s+([0-9,]+\.\d{2})`). -/
def mbbAt (cs : List Char) : Option MbbG :=
  match cs with
  | c0 :: c1 :: rest =>
    if c0.isDigit && c1.isDigit then
      firstSome (descList (wsRun rest)) fun k1 =>
        match rest.drop k1 with
        | a0 :: a1 :: a2 :: r2 =>
          if a0.isAlpha && a1.isAlpha && a2.isAlpha then
            firstSome (descList (wsRun r2)) fun k2 =>
              match r2.drop k2 with
              | y0 :: y1 :: y2 :: y3 :: r3 =>
                if y0.isDigit && y1.isDigit && y2.isDigit && y3.isDigit then
                  (mbbAfterYear r3).map fun t =>
                    ⟨c0, c1, a0, a1, a2, y0, y1, y2, y3, t.1, t.2.1, t.2.2.1, t.2.2.2⟩
                else none
              | _ => none
          else none
        | _ => none
    else none
  | _ => none

/-- `PATTERN_MAYBANK_MBB.search`. -/
def mbbSearchAux : List Char → Option MbbG
  | [] => none
  | c :: cs =>
    match mbbAt (c :: cs) with
    | some g => some g
    | none => mbbSearchAux cs

/-- `parse_line_maybank_mbb(line, page_num)` (`maybank.py` lines 83-106):
the matched month abbreviation is title-cased and looked up in `MONTH_MAP`
— with `"01"` as the default for unknown abbreviations — and the record's
date is `f"{year}-{month}-{day}"` from the matched four-digit year. -/
def parse_line_maybank_mbb (line : String) (page_num : Nat) : Option Tx :=
  match mbbSearchAux line.data with
  | none => none
  | some g =>
    let month := (MONTH_MAP (title3 g.mon1 g.mon2 g.mon3)).getD "01"
    let amount := compVal (g.amountRaw.filter fun c => c.isDigit)
    let balance := compVal (g.balanceRaw.filter fun c => c.isDigit)
    some { date := (⟨[g.yr1, g.yr2, g.yr3, g.yr4]⟩ : String) ++ "-" ++ month ++ "-"
                    ++ (⟨[g.day1, g.day2]⟩ : String)
           description := ⟨pyStripL g.desc⟩
           debit := if g.sign = '-' then amount else 0
           credit := if g.sign = '+' then amount else 0
           balance := balance
           page := page_num
           source_file := none }

/-- The body of the per-line loop of `parse_transactions_maybank`
(`maybank.py` lines 124-139): strip the line, skip it when empty, try the
MTASB recognizer first and the MBB recognizer only when MTASB did not
match. -/
def lineParse (page_num : Nat) (year : String) (raw : String) : Option Tx :=
  let line := pyStrip raw
  if line.data = [] then none
  else
    match parse_line_maybank_mtasb line page_num year with
    | some tx => some tx
    | none => parse_line_maybank_mbb line page_num

/-- `parse_transactions_maybank(text, page_num, default_year="2025")`
(`maybank.py` lines 113-141): the statement year is extracted once from the
page text, then every line is parsed with `lineParse`, keeping the matches
in order. -/
def parse_transactions_maybank (text : String) (page_num : Nat)
    (default_year : String := "2025") : List Tx :=
  let year := extract_statement_year text default_year
  (pySplitlines text).filterMap (lineParse page_num year)

/-!
## `app.py`

The parsers imported from `public_bank.py`, `rhb.py` and `cimb.py` are not
among the provided sources, so they enter the embedding as function
parameters.  The CIMB parser consumes the pdfplumber page object; its stand-in
parameter receives the page's text in that position.
-/

/-- The CIMB keyword test of `auto_detect_and_parse` (`app.py` line 57):
`"CIMB" in text or "cimb" in text.lower()`. -/
def cimbHint (text : String) : Bool :=
  hasSub "CIMB".data text.data || hasSub "cimb".data (text.data.map Char.toLower)

/-- `auto_detect_and_parse(text, page_obj, page_num, source_file=...)`
(`app.py` lines 50-73): when the CIMB keyword occurs, the CIMB parser is
tried first; then Maybank, Public Bank and RHB in that order; the first
non-empty result is returned and no further parser runs. -/
def auto_detect_and_parse (cimbParse : String → Nat → String → List Tx)
    (pbbParse rhbParse : String → Nat → List Tx)
    (text : String) (page_obj : String) (page_num : Nat) (source_file : String) :
    List Tx :=
  let cimbTx := if cimbHint text then cimbParse page_obj page_num source_file else []
  if cimbTx ≠ [] then cimbTx
  else
    let t1 := parse_transactions_maybank text page_num
    if t1 ≠ [] then t1
    else
      let t2 := pbbParse text page_num
      if t2 ≠ [] then t2
      else
        let t3 := rhbParse text page_num
        if t3 ≠ [] then t3 else []

/-- 1-based enumeration, as in `enumerate(pdf.pages, start=1)`. -/
def enumFrom {α : Type} (n : Nat) : List α → List (Nat × α)
  | [] => []
  | a :: as => (n, a) :: enumFrom (n + 1) as

/-- The main processing loop of `app.py` (lines 130-172): every page of every
file is parsed according to the bank hint (`None` means auto-detect), each
resulting record is stamped with its source file name, the records are
concatenated in input order, and `infer_and_fix_years` runs ONCE over the
combined list of all files' transactions.  A file is `(name, page texts)`. -/
def processFiles (nowYear : Nat) (cimbParse : String → Nat → String → List Tx)
    (pbbParse rhbParse : String → Nat → List Tx)
    (bank_hint : Option String) (files : List (String × List String)) : List Tx :=
  let all_tx := files.flatMap fun file =>
    (enumFrom 1 file.2).flatMap fun page =>
      let tx :=
        match bank_hint with
        | some "maybank" => parse_transactions_maybank page.2 page.1
        | some "pbb" => pbbParse page.2 page.1
        | some "rhb" => rhbParse page.2 page.1
        | some "cimb" => cimbParse page.2 page.1 file.1
        | _ => auto_detect_and_parse cimbParse pbbParse rhbParse page.2 page.2 page.1 file.1
      tx.map fun t => { t with source_file := some file.1 }
  infer_and_fix_years nowYear all_tx

/-- Modelled from the spec: the Public Bank recognizer
(`parse_transactions_pbb` of `public_bank.py`, imported by `app.py`) is not
among the provided sources.  Per §2/§4.3 a recognizer maps each line of a
page to at most one transaction record, and some supported formats carry
day/month-only dates — the Year Resolver of §4.2 exists precisely to
complete them; §3 lets `debit`/`credit` default to `0.0` and `balance` be
absent.  This minimal model emits a record with a day/month-only date for
every line beginning with a `DD/MM` token. -/
def pbbModel (text : String) (page_num : Nat) : List Tx :=
  (pySplitlines text).filterMap fun raw =>
    match (pyStrip raw).data with
    | d1 :: d2 :: '/' :: m1 :: m2 :: rest =>
      if d1.isDigit && d2.isDigit && m1.isDigit && m2.isDigit then
        some { date := ⟨[d1, d2, '/', m1, m2]⟩
               description := ⟨pyStripL rest⟩
               debit := 0
               credit := 0
               balance := 0
               page := page_num
               source_file := none }
      else none
    | _ => none

/-- A parser parameter that recognizes nothing (used to instantiate the
absent CIMB/RHB parsers where a concrete closed statement needs them). -/
def noParse2 (_text : String) (_page_num : Nat) : List Tx := []

/-- A CIMB-shaped parser parameter that recognizes nothing. -/
def noParse3 (_page_obj : String) (_page_num : Nat) (_source_file : String) : List Tx := []

/-- A bare transaction record carrying only a date (the year-resolver claims
quantify over such records). -/
def mkTx (date : String) : Tx :=
  { date := date, description := "", debit := 0, credit := 0, balance := 0,
    page := 1, source_file := none }

/-!
## Helper lemmas
-/

theorem findSome_inv {α : Type} {f : Nat → Option α} {b : α} :
    ∀ {ks : List Nat}, ks.findSome? f = some b → ∃ k, k ∈ ks ∧ f k = some b := by
  intro ks
  induction ks with
  | nil => intro h; simp [List.findSome?] at h
  | cons k ks ih =>
    intro h
    rw [List.findSome?] at h
    cases hf : f k with
    | some v =>
      rw [hf] at h
      simp only [] at h
      exact ⟨k, List.mem_cons_self k ks, by rw [hf, h]⟩
    | none =>
      rw [hf] at h
      simp only [] at h
      obtain ⟨j, hj, hfj⟩ := ih h
      exact ⟨j, List.mem_cons_of_mem k hj, hfj⟩

theorem splitOnChar_ne_nil (sep : Char) (cs : List Char) : splitOnChar sep cs ≠ [] := by
  cases cs with
  | nil => simp [splitOnChar]
  | cons c cs =>
    rw [splitOnChar]
    cases h : splitOnChar sep cs with
    | nil => simp
    | cons p ps =>
      by_cases hc : c = sep <;> simp [hc]

theorem splitOnChar_no_sep (sep : Char) (cs : List Char)
    (h : ∀ c ∈ cs, c ≠ sep) : splitOnChar sep cs = [cs] := by
  induction cs with
  | nil => rfl
  | cons c cs ih =>
    have hcs : ∀ x ∈ cs, x ≠ sep := fun x hx => h x (List.mem_cons_of_mem c hx)
    have hc : c ≠ sep := h c (List.mem_cons_self c cs)
    rw [splitOnChar, ih hcs]
    simp [hc]

theorem splitOnChar_sep_append (sep : Char) (a b : List Char)
    (h : ∀ c ∈ a, c ≠ sep) :
    splitOnChar sep (a ++ sep :: b) = a :: splitOnChar sep b := by
  induction a with
  | nil =>
    rw [List.nil_append, splitOnChar]
    cases hb : splitOnChar sep b with
    | nil => exact absurd hb (splitOnChar_ne_nil sep b)
    | cons p ps => simp
  | cons c a ih =>
    have ha : ∀ x ∈ a, x ≠ sep := fun x hx => h x (List.mem_cons_of_mem c hx)
    have hc : c ≠ sep := h c (List.mem_cons_self c a)
    rw [List.cons_append, splitOnChar, ih ha]
    simp [hc]

theorem digitChar_spec (n : Nat) (h : n ≤ 9) :
    (Nat.digitChar n).isDigit = true ∧ dval (Nat.digitChar n) = n ∧
      Nat.digitChar n ≠ '/' ∧ Nat.digitChar n ≠ '-' := by
  interval_cases n <;> exact ⟨by decide, by decide, by decide, by decide⟩

theorem pad2chars_spec (n : Nat) (h : n ≤ 99) :
    (pad2chars n).all Char.isDigit = true ∧ (pad2chars n).length = 2 ∧
      compVal (pad2chars n) = n ∧ ∀ c ∈ pad2chars n, c ≠ '/' ∧ c ≠ '-' := by
  have h1 : n / 10 ≤ 9 := by omega
  have h2 : n % 10 ≤ 9 := Nat.le_of_lt_succ (Nat.mod_lt n (by omega))
  obtain ⟨d1a, d1b, d1c, d1d⟩ := digitChar_spec (n / 10) h1
  obtain ⟨d2a, d2b, d2c, d2d⟩ := digitChar_spec (n % 10) h2
  refine ⟨?_, rfl, ?_, ?_⟩
  · simp [pad2chars, List.all, d1a, d2a]
  · show (10 * (10 * 0 + dval (Nat.digitChar (n / 10))) + dval (Nat.digitChar (n % 10))) = n
    rw [d1b, d2b]; omega
  · intro c hc
    rw [pad2chars] at hc
    rcases List.mem_cons.mp hc with h' | hc2
    · rw [h']; exact ⟨d1c, d1d⟩
    · rcases List.mem_cons.mp hc2 with h' | h'
      · rw [h']; exact ⟨d2c, d2d⟩
      · simp at h'

theorem isDigit_ne_seps {c : Char} (h : c.isDigit = true) : c ≠ '/' ∧ c ≠ '-' := by
  constructor <;> · rintro rfl; simp at h

theorem dayComp_pad2 (d : Nat) (h1 : 1 ≤ d) (h2 : d ≤ 31) :
    dayComp (pad2chars d) = some d := by
  obtain ⟨ha, hl, hv, _⟩ := pad2chars_spec d (by omega)
  simp only [dayComp, hv, hl, ha]
  simp [h1, h2]

theorem monthComp_pad2 (m : Nat) (h1 : 1 ≤ m) (h2 : m ≤ 12) :
    monthComp (pad2chars m) = some m := by
  obtain ⟨ha, hl, hv, _⟩ := pad2chars_spec m (by omega)
  simp only [monthComp, hv, hl, ha]
  simp [h1, h2]

theorem parseDateFormats_dm (s : String) (d m : Nat)
    (hs : s.data = pad2chars d ++ '/' :: pad2chars m)
    (h1 : 1 ≤ d) (h2 : d ≤ 31) (h3 : 1 ≤ m) (h4 : m ≤ 12)
    (h5 : d ≤ daysInMonth 1900 m) :
    parseDateFormats s = some (d, m, none) := by
  obtain ⟨da, dl, dv, dns⟩ := pad2chars_spec d (by omega)
  obtain ⟨ma, ml, mv, mns⟩ := pad2chars_spec m (by omega)
  have hslash : splitOnChar '/' s.data = [pad2chars d, pad2chars m] := by
    rw [hs, splitOnChar_sep_append '/' _ _ (fun c hc => (dns c hc).1),
        splitOnChar_no_sep '/' _ (fun c hc => (mns c hc).1)]
  have hdash : splitOnChar '-' s.data = [s.data] := by
    apply splitOnChar_no_sep
    intro c hc
    rw [hs] at hc
    rcases List.mem_append.mp hc with h' | h'
    · exact (dns c h').2
    · rcases List.mem_cons.mp h' with h'' | h''
      · rw [h'']; decide
      · exact (mns c h'').2
  have e1 : strptimeDMY '/' s = none := by simp only [strptimeDMY, hslash]
  have e2 : strptimeDMY '-' s = none := by simp only [strptimeDMY, hdash]
  have e3 : strptimeDMy '/' s = none := by simp only [strptimeDMy, hslash]
  have e4 : strptimeDMy '-' s = none := by simp only [strptimeDMy, hdash]
  have e5 : strptimeDM '/' s = some (d, m) := by
    simp only [strptimeDM, hslash, dayComp_pad2 d h1 h2, monthComp_pad2 m h3 h4,
      Option.bind_some]
    simp [h5]
  simp only [parseDateFormats, e1, e2, e3, e4, e5]

theorem fixStep_dm (pm : Option Nat) (ay : Nat) (s : String) (d m : Nat)
    (hs : s.data = pad2chars d ++ '/' :: pad2chars m)
    (h1 : 1 ≤ d) (h2 : d ≤ 31) (h3 : 1 ≤ m) (h4 : m ≤ 12)
    (h5 : d ≤ daysInMonth 1900 m) :
    fixStep (pm, ay) (mkTx s) =
      ((some m, advanceYear pm ay m),
        mkTx (fmtDMY d m (advanceYear pm ay m))) := by
  have hp : parseDateFormats (mkTx s).date = some (d, m, none) :=
    parseDateFormats_dm s d m hs h1 h2 h3 h4 h5
  simp only [fixStep, hp]
  rfl

theorem parseDateFormats_iso_none (y m d : List Char)
    (hy : y.length = 4)
    (hdig : ∀ c ∈ y ++ m ++ d, c.isDigit = true) :
    parseDateFormats ⟨y ++ '-' :: (m ++ '-' :: d)⟩ = none := by
  have hymem : ∀ c ∈ y, c.isDigit = true := fun c hc =>
    hdig c (List.mem_append.mpr (Or.inl (List.mem_append.mpr (Or.inl hc))))
  have hmmem : ∀ c ∈ m, c.isDigit = true := fun c hc =>
    hdig c (List.mem_append.mpr (Or.inl (List.mem_append.mpr (Or.inr hc))))
  have hdmem : ∀ c ∈ d, c.isDigit = true := fun c hc =>
    hdig c (List.mem_append.mpr (Or.inr hc))
  have hslash : splitOnChar '/' (y ++ '-' :: (m ++ '-' :: d)) =
      [y ++ '-' :: (m ++ '-' :: d)] := by
    apply splitOnChar_no_sep
    intro c hc
    rcases List.mem_append.mp hc with h' | h'
    · exact (isDigit_ne_seps (hymem c h')).1
    · rcases List.mem_cons.mp h' with h'' | h''
      · rw [h'']; decide
      · rcases List.mem_append.mp h'' with h3 | h3
        · exact (isDigit_ne_seps (hmmem c h3)).1
        · rcases List.mem_cons.mp h3 with h4 | h4
          · rw [h4]; decide
          · exact (isDigit_ne_seps (hdmem c h4)).1
  have hdash : splitOnChar '-' (y ++ '-' :: (m ++ '-' :: d)) = [y, m, d] := by
    rw [splitOnChar_sep_append '-' _ _ (fun c hc => (isDigit_ne_seps (hymem c hc)).2),
        splitOnChar_sep_append '-' _ _ (fun c hc => (isDigit_ne_seps (hmmem c hc)).2),
        splitOnChar_no_sep '-' _ (fun c hc => (isDigit_ne_seps (hdmem c hc)).2)]
  have hdayy : dayComp y = none := by
    simp only [dayComp, hy]
    simp
  have hdata : (⟨y ++ '-' :: (m ++ '-' :: d)⟩ : String).data = y ++ '-' :: (m ++ '-' :: d) := rfl
  have e1 : strptimeDMY '/' ⟨y ++ '-' :: (m ++ '-' :: d)⟩ = none := by
    simp only [strptimeDMY, hdata, hslash]
  have e2 : strptimeDMY '-' ⟨y ++ '-' :: (m ++ '-' :: d)⟩ = none := by
    simp [strptimeDMY, hdata, hdash, hdayy]
  have e3 : strptimeDMy '/' ⟨y ++ '-' :: (m ++ '-' :: d)⟩ = none := by
    simp only [strptimeDMy, hdata, hslash]
  have e4 : strptimeDMy '-' ⟨y ++ '-' :: (m ++ '-' :: d)⟩ = none := by
    simp [strptimeDMy, hdata, hdash, hdayy]
  have e5 : strptimeDM '/' ⟨y ++ '-' :: (m ++ '-' :: d)⟩ = none := by
    simp only [strptimeDM, hdata, hslash]
  have e6 : strptimeDM '-' ⟨y ++ '-' :: (m ++ '-' :: d)⟩ = none := by
    simp only [strptimeDM, hdata, hdash]
  simp only [parseDateFormats, e1, e2, e3, e4, e5, e6]

/-- C1: for every chronologically ordered sequence of day/month-only dates
with months 11, 12, 1, 2 in that order, processed in one scope with
fallback year 2024, the resolver assigns years 2024, 2024, 2025, 2025; and
the assigned year is incremented by one exactly when a month value at most
2 follows a previously seen month value at least 11, otherwise the
previously resolved year is reused. -/
theorem C1_year_rollover (d1 d2 d3 d4 : Nat)
    (h1 : 1 ≤ d1) (h1b : d1 ≤ 30) (h2 : 1 ≤ d2) (h2b : d2 ≤ 31)
    (h3 : 1 ≤ d3) (h3b : d3 ≤ 31) (h4 : 1 ≤ d4) (h4b : d4 ≤ 28) :
    infer_and_fix_years 2024
        [mkTx (pad2 d1 ++ "/11"), mkTx (pad2 d2 ++ "/12"),
         mkTx (pad2 d3 ++ "/01"), mkTx (pad2 d4 ++ "/02")] =
      [mkTx (pad2 d1 ++ "/11/2024"), mkTx (pad2 d2 ++ "/12/2024"),
       mkTx (pad2 d3 ++ "/01/2025"), mkTx (pad2 d4 ++ "/02/2025")]
    ∧ (∀ p y m, (advanceYear (some p) y m = y + 1 ↔ 11 ≤ p ∧ m ≤ 2)
        ∧ (¬(11 ≤ p ∧ m ≤ 2) → advanceYear (some p) y m = y))
    ∧ (∀ y m, advanceYear none y m = y) := by
  refine ⟨?_, ?_, fun y m => rfl⟩
  · have hd1 : d1 ≤ daysInMonth 1900 11 := by
      have h30 : daysInMonth 1900 11 = 30 := by decide
      omega
    have hd2 : d2 ≤ daysInMonth 1900 12 := by
      have h31 : daysInMonth 1900 12 = 31 := by decide
      omega
    have hd3 : d3 ≤ daysInMonth 1900 1 := by
      have h31 : daysInMonth 1900 1 = 31 := by decide
      omega
    have hd4 : d4 ≤ daysInMonth 1900 2 := by
      have h28 : daysInMonth 1900 2 = 28 := by decide
      omega
    have f1 := fixStep_dm none 2024 (pad2 d1 ++ "/11") d1 11 rfl h1 (by omega)
      (by omega) (by omega) hd1
    have f2 := fixStep_dm (some 11) 2024 (pad2 d2 ++ "/12") d2 12 rfl h2 (by omega)
      (by omega) (by omega) hd2
    have f3 := fixStep_dm (some 12) 2024 (pad2 d3 ++ "/01") d3 1 rfl h3 (by omega)
      (by omega) (by omega) hd3
    have f4 := fixStep_dm (some 1) 2025 (pad2 d4 ++ "/02") d4 2 rfl h4 (by omega)
      (by omega) (by omega) hd4
    have a1 : advanceYear none 2024 11 = 2024 := rfl
    have a2 : advanceYear (some 11) 2024 12 = 2024 := by decide
    have a3 : advanceYear (some 12) 2024 1 = 2025 := by decide
    have a4 : advanceYear (some 1) 2025 2 = 2025 := by decide
    rw [a1] at f1
    rw [a2] at f2
    rw [a3] at f3
    rw [a4] at f4
    have g1 : fmtDMY d1 11 2024 = pad2 d1 ++ "/11/2024" := rfl
    have g2 : fmtDMY d2 12 2024 = pad2 d2 ++ "/12/2024" := rfl
    have g3 : fmtDMY d3 1 2025 = pad2 d3 ++ "/01/2025" := rfl
    have g4 : fmtDMY d4 2 2025 = pad2 d4 ++ "/02/2025" := rfl
    simp only [infer_and_fix_years, mapAccumTx, f1, f2, f3, f4, g1, g2, g3, g4]
  · intro p y m
    simp only [advanceYear]
    by_cases hc : p ≠ 0 ∧ m < p ∧ 11 ≤ p ∧ m ≤ 2
    · rw [if_pos hc]
      exact ⟨⟨fun _ => ⟨hc.2.2.1, hc.2.2.2⟩, fun _ => rfl⟩,
        fun hn => absurd ⟨hc.2.2.1, hc.2.2.2⟩ hn⟩
    · rw [if_neg hc]
      refine ⟨⟨fun h => absurd h (by omega), fun hpm => ?_⟩, fun _ => rfl⟩
      exact absurd ⟨by omega, by omega, hpm.1, hpm.2⟩ hc

/-- Witness for C1 at the concrete days 1, 2, 3, 4. -/
theorem C1_year_rollover_witness :
    ((1:Nat) ≤ 1 ∧ (1:Nat) ≤ 30 ∧ (1:Nat) ≤ 2 ∧ (2:Nat) ≤ 31 ∧
      (1:Nat) ≤ 3 ∧ (3:Nat) ≤ 31 ∧ (1:Nat) ≤ 4 ∧ (4:Nat) ≤ 28) ∧
    infer_and_fix_years 2024
        [mkTx (pad2 1 ++ "/11"), mkTx (pad2 2 ++ "/12"),
         mkTx (pad2 3 ++ "/01"), mkTx (pad2 4 ++ "/02")] =
      [mkTx (pad2 1 ++ "/11/2024"), mkTx (pad2 2 ++ "/12/2024"),
       mkTx (pad2 3 ++ "/01/2025"), mkTx (pad2 4 ++ "/02/2025")] :=
  ⟨by decide,
    (C1_year_rollover 1 2 3 4 (by decide) (by decide) (by decide) (by decide)
      (by decide) (by decide) (by decide) (by decide)).1⟩

/-- C9: a record whose date has the four-digit-year `YYYY-MM-DD` shape that
both Maybank recognizers produce is left unchanged by the year-fixing pass
(no date format matches it), and the pass's resolver state is not updated
from that record. -/
theorem C9_full_date_frame (st : Option Nat × Nat) (tx : Tx) (rest : List Tx)
    (y m d : List Char)
    (hdate : tx.date = (⟨y ++ '-' :: (m ++ '-' :: d)⟩ : String))
    (hy : y.length = 4) (hm : m.length = 2) (hd : d.length = 2)
    (hdig : ∀ c ∈ y ++ m ++ d, c.isDigit = true) :
    fixStep st tx = (st, tx) ∧
      mapAccumTx st (tx :: rest) = tx :: mapAccumTx st rest := by
  have hnone : parseDateFormats tx.date = none := by
    rw [hdate]
    exact parseDateFormats_iso_none y m d hy hdig
  have hfix : fixStep st tx = (st, tx) := by simp [fixStep, hnone]
  exact ⟨hfix, by simp [mapAccumTx, hfix]⟩

/-- Witness for C9 at the record date `2025-06-01` and a non-trivial
resolver state. -/
theorem C9_full_date_frame_witness :
    ((mkTx "2025-06-01").date
        = (⟨['2','0','2','5'] ++ '-' :: (['0','6'] ++ '-' :: ['0','1'])⟩ : String)) ∧
    fixStep (some 6, 2024) (mkTx "2025-06-01") = ((some 6, 2024), mkTx "2025-06-01") :=
  ⟨rfl,
    (C9_full_date_frame (some 6, 2024) (mkTx "2025-06-01") []
      ['2','0','2','5'] ['0','6'] ['0','1'] rfl rfl rfl rfl (by decide)).1⟩

theorem mtasbSearchAux_inv : ∀ {cs : List Char} {g : MtasbG},
    mtasbSearchAux cs = some g → ∃ t, mtasbAt t = some g := by
  intro cs
  induction cs with
  | nil => intro g h; simp [mtasbSearchAux] at h
  | cons c cs ih =>
    intro g h
    rw [mtasbSearchAux] at h
    cases ha : mtasbAt (c :: cs) with
    | some g2 =>
      rw [ha] at h
      simp only [] at h
      exact ⟨c :: cs, by rw [ha, h]⟩
    | none =>
      rw [ha] at h
      simp only [] at h
      exact ih h

theorem mtasbAt_inv {cs : List Char} {g : MtasbG} (h : mtasbAt cs = some g) :
    ∃ d1 d2 d3 d4 : Char, d1.isDigit = true ∧ d2.isDigit = true ∧
      d3.isDigit = true ∧ d4.isDigit = true ∧ g.dateRaw = [d1, d2, '/', d3, d4] := by
  rcases cs with _ | ⟨d1, _ | ⟨d2, _ | ⟨s, _ | ⟨d3, _ | ⟨d4, rest⟩⟩⟩⟩⟩
  · simp [mtasbAt] at h
  · simp [mtasbAt] at h
  · simp [mtasbAt] at h
  · simp [mtasbAt] at h
  · simp [mtasbAt] at h
  · simp only [mtasbAt] at h
    by_cases hc : (d1.isDigit && d2.isDigit && s == '/' && d3.isDigit && d4.isDigit) = true
    · rw [if_pos hc] at h
      obtain ⟨hd1, hd2, hs, hd3, hd4⟩ : d1.isDigit = true ∧ d2.isDigit = true ∧
          s = '/' ∧ d3.isDigit = true ∧ d4.isDigit = true := by
        simp only [Bool.and_eq_true, beq_iff_eq] at hc
        exact ⟨hc.1.1.1.1, hc.1.1.1.2, hc.1.1.2, hc.1.2, hc.2⟩
      obtain ⟨t, ht, hrec⟩ := Option.map_eq_some'.mp h
      refine ⟨d1, d2, d3, d4, hd1, hd2, hd3, hd4, ?_⟩
      rw [← hrec]
    · rw [if_neg hc] at h
      cases h

theorem mbbSearchAux_inv : ∀ {cs : List Char} {g : MbbG},
    mbbSearchAux cs = some g → ∃ t, mbbAt t = some g := by
  intro cs
  induction cs with
  | nil => intro g h; simp [mbbSearchAux] at h
  | cons c cs ih =>
    intro g h
    rw [mbbSearchAux] at h
    cases ha : mbbAt (c :: cs) with
    | some g2 =>
      rw [ha] at h
      simp only [] at h
      exact ⟨c :: cs, by rw [ha, h]⟩
    | none =>
      rw [ha] at h
      simp only [] at h
      exact ih h

theorem mbbAt_inv {cs : List Char} {g : MbbG} (h : mbbAt cs = some g) :
    g.day1.isDigit = true ∧ g.day2.isDigit = true ∧ g.yr1.isDigit = true ∧
      g.yr2.isDigit = true ∧ g.yr3.isDigit = true ∧ g.yr4.isDigit = true := by
  simp only [mbbAt] at h
  split at h
  · split at h
    · rename_i h01
      simp only [firstSome] at h
      obtain ⟨k1, hk1, hf⟩ := findSome_inv h
      split at hf
      · split at hf
        · obtain ⟨k2, hk2, hf2⟩ := findSome_inv hf
          split at hf2
          · split at hf2
            · rename_i hy
              obtain ⟨t, ht, hrec⟩ := Option.map_eq_some'.mp hf2
              rw [← hrec]
              simp only [Bool.and_eq_true] at h01 hy
              exact ⟨h01.1, h01.2, hy.1.1.1, hy.1.1.2, hy.1.2, hy.2⟩
            · cases hf2
          · cases hf2
        · cases hf
      · cases hf
    · cases h
  · cases h

theorem month_map_getD (s : String) :
    (MONTH_MAP s).getD "01" ∈
      (["01", "02", "03", "04", "05", "06", "07", "08", "09", "10", "11", "12"] :
        List String) := by
  rw [MONTH_MAP.eq_def]
  split <;> simp

theorem mem_pair_ne_slash {a b : Char} (ha : a.isDigit = true) (hb : b.isDigit = true) :
    ∀ c ∈ [a, b], c ≠ '/' := by
  intro c hc
  rcases List.mem_cons.mp hc with rfl | hc2
  · exact (isDigit_ne_seps ha).1
  · rcases List.mem_cons.mp hc2 with rfl | hc3
    · exact (isDigit_ne_seps hb).1
    · simp at hc3

theorem mtasb_shape {line : String} {pg : Nat} {y : String} {tx : Tx}
    (h : parse_line_maybank_mtasb line pg y = some tx) :
    (tx.debit = 0 ∨ tx.credit = 0) ∧
    ∃ d1 d2 d3 d4 : Char, d1.isDigit = true ∧ d2.isDigit = true ∧
      d3.isDigit = true ∧ d4.isDigit = true ∧
      tx.date = y ++ "-" ++ (⟨[d3, d4]⟩ : String) ++ "-" ++ (⟨[d1, d2]⟩ : String) := by
  rw [parse_line_maybank_mtasb] at h
  cases hs : mtasbSearchAux line.data with
  | none => rw [hs] at h; cases h
  | some g =>
    rw [hs] at h
    simp only [] at h
    obtain ⟨t, ht⟩ := mtasbSearchAux_inv hs
    obtain ⟨d1, d2, d3, d4, hd1, hd2, hd3, hd4, hdr⟩ := mtasbAt_inv ht
    have hsplit : splitOnChar '/' g.dateRaw = [[d1, d2], [d3, d4]] := by
      rw [hdr]
      have heq : [d1, d2, '/', d3, d4] = [d1, d2] ++ '/' :: [d3, d4] := rfl
      rw [heq, splitOnChar_sep_append '/' _ _ (mem_pair_ne_slash hd1 hd2),
        splitOnChar_no_sep '/' _ (mem_pair_ne_slash hd3 hd4)]
    rw [hsplit] at h
    simp only [] at h
    rw [Option.some_inj] at h
    subst h
    constructor
    · by_cases hsg : g.sign = '+'
      · left; simp [hsg]
      · right; simp [hsg]
    · exact ⟨d1, d2, d3, d4, hd1, hd2, hd3, hd4, rfl⟩

theorem mbb_shape {line : String} {pg : Nat} {tx : Tx}
    (h : parse_line_maybank_mbb line pg = some tx) :
    (tx.debit = 0 ∨ tx.credit = 0) ∧
    ∃ (y1 y2 y3 y4 d1 d2 : Char) (mon : String),
      y1.isDigit = true ∧ y2.isDigit = true ∧ y3.isDigit = true ∧ y4.isDigit = true ∧
      d1.isDigit = true ∧ d2.isDigit = true ∧
      mon ∈ (["01", "02", "03", "04", "05", "06", "07", "08", "09", "10", "11", "12"] :
        List String) ∧
      tx.date = (⟨[y1, y2, y3, y4]⟩ : String) ++ "-" ++ mon ++ "-"
        ++ (⟨[d1, d2]⟩ : String) := by
  rw [parse_line_maybank_mbb] at h
  cases hs : mbbSearchAux line.data with
  | none => rw [hs] at h; cases h
  | some g =>
    rw [hs] at h
    simp only [] at h
    obtain ⟨t, ht⟩ := mbbSearchAux_inv hs
    obtain ⟨hD1, hD2, hY1, hY2, hY3, hY4⟩ := mbbAt_inv ht
    rw [Option.some_inj] at h
    subst h
    constructor
    · by_cases hsg : g.sign = '+'
      · left; simp [hsg]
      · right; simp [hsg]
    · exact ⟨g.yr1, g.yr2, g.yr3, g.yr4, g.day1, g.day2,
        (MONTH_MAP (title3 g.mon1 g.mon2 g.mon3)).getD "01",
        hY1, hY2, hY3, hY4, hD1, hD2,
        month_map_getD (title3 g.mon1 g.mon2 g.mon3), rfl⟩

/-- C2 (code-bug demonstration): on a line whose three-letter month token
`Xyz` is no recognized month abbreviation, the MBB recognizer does not fail
the lookup — `MONTH_MAP.get(..., "01")` silently defaults the month to
January and a record dated `2025-01-01` is produced. -/
theorem C2_unknown_month_defaults_to_january :
    parse_line_maybank_mbb "01 Xyz 2025 PAYMENT 78.00 - 71,229.76" 1 =
      some { date := "2025-01-01", description := "PAYMENT", debit := 7800,
             credit := 0, balance := 7122976, page := 1, source_file := none }
    ∧ MONTH_MAP "Xyz" = none := by
  decide

/-- C3 (code-bug demonstration): `app.py` runs `infer_and_fix_years` once
over the concatenated transactions of ALL uploaded files, so the resolver
state leaks across unrelated documents: with a December transaction in file
`a.pdf`, file `b.pdf`'s January transaction is assigned year 2025, whereas
processing `b.pdf` alone assigns 2024. -/
theorem C3_state_leak_across_files :
    processFiles 2024 noParse3 pbbModel noParse2 (some "pbb")
        [("a.pdf", ["30/12 FOO"]), ("b.pdf", ["05/01 BAR"])] =
      [{ date := "30/12/2024", description := "FOO", debit := 0, credit := 0,
         balance := 0, page := 1, source_file := some "a.pdf" },
       { date := "05/01/2025", description := "BAR", debit := 0, credit := 0,
         balance := 0, page := 1, source_file := some "b.pdf" }]
    ∧ processFiles 2024 noParse3 pbbModel noParse2 (some "pbb")
        [("b.pdf", ["05/01 BAR"])] =
      [{ date := "05/01/2024", description := "BAR", debit := 0, credit := 0,
         balance := 0, page := 1, source_file := some "b.pdf" }] := by
  decide

/-- C4 counterexample: page 1 declares statement year 2024, yet page 2 of the
same statement (no declaration in its text) is parsed with the fallback-based
year 2025 — the declared year is neither cached nor reused across pages, so
the caller's fallback is not ignored for the scope. -/
theorem C4_declared_year_not_cached_cx :
    extract_statement_year
        "STATEMENT DATE : 30/06/24\n01/06 FOO 5,000.00+ 9,318.33" "2025" = "2024"
    ∧ parse_transactions_maybank
        "STATEMENT DATE : 30/06/24\n01/06 FOO 5,000.00+ 9,318.33" 1 "2025" =
      [{ date := "2024-06-01", description := "FOO", debit := 0, credit := 500000,
         balance := 931833, page := 1, source_file := none }]
    ∧ parse_transactions_maybank "02/06 BAR 1,000.00+ 10,318.33" 2 "2025" =
      [{ date := "2025-06-02", description := "BAR", debit := 0, credit := 100000,
         balance := 1031833, page := 2, source_file := none }]
    ∧ "2025-06-02" ≠ "2024-06-02" := by
  decide

/-- C4 amended: the declared-year search runs once per page, not once per
statement scope.  Within a single page a declared year makes the
caller-supplied fallback irrelevant; a page without a declaration falls back
to the caller's fallback year; and each page's transactions are parsed with
the year extracted from that page's own text alone. -/
theorem C4_per_page_declared_year (text fb fb2 : String) (yy : Nat) :
    (stySearchAux text.data = some yy →
      extract_statement_year text fb = extract_statement_year text fb2)
    ∧ (stySearchAux text.data = none → extract_statement_year text fb = fb)
    ∧ ∀ pg, parse_transactions_maybank text pg fb =
        (pySplitlines text).filterMap (lineParse pg (extract_statement_year text fb)) := by
  refine ⟨?_, ?_, fun pg => rfl⟩
  · intro h
    simp [extract_statement_year, h]
  · intro h
    simp [extract_statement_year, h]

/-- Witness for C4 at the declaring page text: the declared year 24 makes the
fallback (2025 vs 1999) irrelevant. -/
theorem C4_per_page_declared_year_witness :
    stySearchAux "STATEMENT DATE : 30/06/24\n01/06 FOO 5,000.00+ 9,318.33".data = some 24
    ∧ extract_statement_year
        "STATEMENT DATE : 30/06/24\n01/06 FOO 5,000.00+ 9,318.33" "2025" =
      extract_statement_year
        "STATEMENT DATE : 30/06/24\n01/06 FOO 5,000.00+ 9,318.33" "1999" :=
  ⟨by decide,
    (C4_per_page_declared_year
      "STATEMENT DATE : 30/06/24\n01/06 FOO 5,000.00+ 9,318.33"
      "2025" "1999" 24).1 (by decide)⟩

/-- C5 counterexample: the line `99/99 ...` matches the MTASB digit pattern,
and the recognizer composes the date `2025-99-99` — month 99 and day 99 are
out of calendar range, yet no `InvalidDate` failure occurs and a record is
produced. -/
theorem C5_out_of_range_date_cx :
    parse_line_maybank_mtasb "99/99 PAYMENT 5,000.00+ 9,318.33" 1 "2025" =
      some { date := "2025-99-99", description := "PAYMENT", debit := 0,
             credit := 500000, balance := 931833, page := 1, source_file := none } := by
  decide

/-- C5 amended: the digit-only patterns do guarantee numeric components — an
MTASB record's day and month are two matched digits each, an MBB record's
year is four matched digits, its day two matched digits, and its month one of
the twelve `MONTH_MAP` values — but the values are copied into the date
without any calendar range validation. -/
theorem C5_numeric_components_unvalidated (line : String) (pg : Nat) (y : String)
    (tx tx2 : Tx) :
    (parse_line_maybank_mtasb line pg y = some tx →
      ∃ d1 d2 d3 d4 : Char, d1.isDigit = true ∧ d2.isDigit = true ∧
        d3.isDigit = true ∧ d4.isDigit = true ∧
        tx.date = y ++ "-" ++ (⟨[d3, d4]⟩ : String) ++ "-" ++ (⟨[d1, d2]⟩ : String))
    ∧ (parse_line_maybank_mbb line pg = some tx2 →
      ∃ (y1 y2 y3 y4 d1 d2 : Char) (mon : String),
        y1.isDigit = true ∧ y2.isDigit = true ∧ y3.isDigit = true ∧
        y4.isDigit = true ∧ d1.isDigit = true ∧ d2.isDigit = true ∧
        mon ∈ (["01", "02", "03", "04", "05", "06", "07", "08", "09", "10", "11",
          "12"] : List String) ∧
        tx2.date = (⟨[y1, y2, y3, y4]⟩ : String) ++ "-" ++ mon ++ "-"
          ++ (⟨[d1, d2]⟩ : String)) :=
  ⟨fun h => (mtasb_shape h).2, fun h => (mbb_shape h).2⟩

/-- Witness for C5 at the out-of-range line `99/99 ...`. -/
theorem C5_numeric_components_unvalidated_witness :
    (parse_line_maybank_mtasb "99/99 PAYMENT 5,000.00+ 9,318.33" 1 "2025" =
      some (⟨"2025-99-99", "PAYMENT", 0, 500000, 931833, 1, none⟩ : Tx))
    ∧ ∃ d1 d2 d3 d4 : Char, d1.isDigit = true ∧ d2.isDigit = true ∧
        d3.isDigit = true ∧ d4.isDigit = true ∧
        (⟨"2025-99-99", "PAYMENT", 0, 500000, 931833, 1, none⟩ : Tx).date =
          "2025" ++ "-" ++ (⟨[d3, d4]⟩ : String) ++ "-" ++ (⟨[d1, d2]⟩ : String) :=
  ⟨by decide,
    (C5_numeric_components_unvalidated "99/99 PAYMENT 5,000.00+ 9,318.33" 1 "2025"
      (⟨"2025-99-99", "PAYMENT", 0, 500000, 931833, 1, none⟩ : Tx)
      (⟨"2025-99-99", "PAYMENT", 0, 500000, 931833, 1, none⟩ : Tx)).1
      (by decide)⟩

/-- C6 counterexample: the line `01/06 PAYMENT 0.00+ 9,318.33` carries the
sign marker `+`, yet the produced record has `debit = 0` AND `credit = 0`, so
it is not the case that exactly one of the two is non-zero. -/
theorem C6_zero_amount_cx :
    parse_line_maybank_mtasb "01/06 PAYMENT 0.00+ 9,318.33" 1 "2025" =
      some { date := "2025-06-01", description := "PAYMENT", debit := 0,
             credit := 0, balance := 931833, page := 1, source_file := none } := by
  decide

/-- C6 amended: every record produced by either Maybank recognizer has AT
MOST one of debit/credit non-zero (the sign marker routes the amount to one
side and the other side is 0.0; both sides are zero exactly when the printed
amount is 0.00), and the record's date always carries year, month and day
components — never a bare day/month pair. -/
theorem C6_sign_routing_full_date (line : String) (pg : Nat) (y : String)
    (tx tx2 : Tx) :
    (parse_line_maybank_mtasb line pg y = some tx →
      (tx.debit = 0 ∨ tx.credit = 0) ∧
      ∃ m d : String, tx.date = y ++ "-" ++ m ++ "-" ++ d)
    ∧ (parse_line_maybank_mbb line pg = some tx2 →
      (tx2.debit = 0 ∨ tx2.credit = 0) ∧
      ∃ yr m d : String, tx2.date = yr ++ "-" ++ m ++ "-" ++ d) := by
  constructor
  · intro h
    obtain ⟨hdc, d1, d2, d3, d4, hx1, hx2, hx3, hx4, hdate⟩ := mtasb_shape h
    exact ⟨hdc, ⟨(⟨[d3, d4]⟩ : String), (⟨[d1, d2]⟩ : String), hdate⟩⟩
  · intro h
    obtain ⟨hdc, y1, y2, y3, y4, d1, d2, mon, hx1, hx2, hx3, hx4, hx5, hx6, hx7, hdate⟩ :=
      mbb_shape h
    exact ⟨hdc, ⟨(⟨[y1, y2, y3, y4]⟩ : String), mon, (⟨[d1, d2]⟩ : String), hdate⟩⟩

/-- Witness for C6 at a line with a non-zero amount and sign marker `+`. -/
theorem C6_sign_routing_full_date_witness :
    (parse_line_maybank_mtasb "01/06 TRANSFER TO A/C 5,000.00+ 9,318.33" 1 "2025" =
      some (⟨"2025-06-01", "TRANSFER TO A/C", 0, 500000, 931833, 1, none⟩ : Tx))
    ∧ (((⟨"2025-06-01", "TRANSFER TO A/C", 0, 500000, 931833, 1, none⟩ : Tx).debit = 0 ∨
        (⟨"2025-06-01", "TRANSFER TO A/C", 0, 500000, 931833, 1, none⟩ : Tx).credit = 0) ∧
      ∃ m d : String,
        (⟨"2025-06-01", "TRANSFER TO A/C", 0, 500000, 931833, 1, none⟩ : Tx).date =
          "2025" ++ "-" ++ m ++ "-" ++ d) :=
  ⟨by decide,
    (C6_sign_routing_full_date "01/06 TRANSFER TO A/C 5,000.00+ 9,318.33" 1 "2025"
      (⟨"2025-06-01", "TRANSFER TO A/C", 0, 500000, 931833, 1, none⟩ : Tx)
      (⟨"2025-06-01", "TRANSFER TO A/C", 0, 500000, 931833, 1, none⟩ : Tx)).1
      (by decide)⟩

/-- C8 counterexample: the very same input processed at wall-clock year 2024
and at wall-clock year 2025 yields different outputs (the fallback assigned
year of `infer_and_fix_years` is `datetime.now().year`), so two runs of the
pipeline on identical input are NOT identical regardless of when they
occur.  The Public Bank recognizer slot is instantiated with the
spec-modelled day/month recognizer `pbbModel`. -/
theorem C8_clock_dependence_cx :
    processFiles 2024 noParse3 pbbModel noParse2 (some "pbb")
        [("b.pdf", ["05/01 BAR"])] ≠
      processFiles 2025 noParse3 pbbModel noParse2 (some "pbb")
        [("b.pdf", ["05/01 BAR"])] := by
  decide

/-- C8 amended: the pipeline is deterministic in its inputs TOGETHER WITH the
wall-clock year read by `infer_and_fix_years`: two runs with equal page
texts, source identifiers, format hints, parser set and equal current system
year produce identical output lists, element for element. -/
theorem C8_same_clock_determinism (y1 y2 : Nat)
    (c1 c2 : String → Nat → String → List Tx)
    (p1 p2 r1 r2 : String → Nat → List Tx) (h1 h2 : Option String)
    (f1 f2 : List (String × List String))
    (hy : y1 = y2) (hc : c1 = c2) (hp : p1 = p2) (hr : r1 = r2)
    (hh : h1 = h2) (hf : f1 = f2) :
    processFiles y1 c1 p1 r1 h1 f1 = processFiles y2 c2 p2 r2 h2 f2 := by
  subst hy
  subst hc
  subst hp
  subst hr
  subst hh
  subst hf
  rfl

/-- Witness for C8 at a concrete batch processed twice at the same year. -/
theorem C8_same_clock_determinism_witness :
    ((2024 : Nat) = 2024 ∧ (some "pbb" : Option String) = some "pbb") ∧
    processFiles 2024 noParse3 pbbModel noParse2 (some "pbb")
        [("b.pdf", ["05/01 BAR"])] =
      processFiles 2024 noParse3 pbbModel noParse2 (some "pbb")
        [("b.pdf", ["05/01 BAR"])] :=
  ⟨⟨rfl, rfl⟩,
    C8_same_clock_determinism 2024 2024 noParse3 noParse3 pbbModel pbbModel
      noParse2 noParse2 (some "pbb") (some "pbb")
      [("b.pdf", ["05/01 BAR"])] [("b.pdf", ["05/01 BAR"])]
      rfl rfl rfl rfl rfl rfl⟩

/-- C7: in auto-detect mode the recognizers are tried in the fixed priority
order CIMB-if-keyword, Maybank, Public Bank, RHB; the whole page result is
the output of exactly one recognizer (or empty), so records of two different
recognizers are never merged; and the first recognizer producing at least
one record supplies the page's records. -/
theorem C7_priority_dispatch (cimbParse : String → Nat → String → List Tx)
    (pbbParse rhbParse : String → Nat → List Tx)
    (text pobj : String) (pg : Nat) (sf : String) :
    (auto_detect_and_parse cimbParse pbbParse rhbParse text pobj pg sf = [] ∨
      auto_detect_and_parse cimbParse pbbParse rhbParse text pobj pg sf =
        cimbParse pobj pg sf ∨
      auto_detect_and_parse cimbParse pbbParse rhbParse text pobj pg sf =
        parse_transactions_maybank text pg ∨
      auto_detect_and_parse cimbParse pbbParse rhbParse text pobj pg sf =
        pbbParse text pg ∨
      auto_detect_and_parse cimbParse pbbParse rhbParse text pobj pg sf =
        rhbParse text pg)
    ∧ (cimbHint text = true → cimbParse pobj pg sf ≠ [] →
        auto_detect_and_parse cimbParse pbbParse rhbParse text pobj pg sf =
          cimbParse pobj pg sf)
    ∧ ((cimbHint text = false ∨ cimbParse pobj pg sf = []) →
        parse_transactions_maybank text pg ≠ [] →
        auto_detect_and_parse cimbParse pbbParse rhbParse text pobj pg sf =
          parse_transactions_maybank text pg)
    ∧ ((cimbHint text = false ∨ cimbParse pobj pg sf = []) →
        parse_transactions_maybank text pg = [] → pbbParse text pg ≠ [] →
        auto_detect_and_parse cimbParse pbbParse rhbParse text pobj pg sf =
          pbbParse text pg)
    ∧ ((cimbHint text = false ∨ cimbParse pobj pg sf = []) →
        parse_transactions_maybank text pg = [] → pbbParse text pg = [] →
        rhbParse text pg ≠ [] →
        auto_detect_and_parse cimbParse pbbParse rhbParse text pobj pg sf =
          rhbParse text pg)
    ∧ ((cimbHint text = false ∨ cimbParse pobj pg sf = []) →
        parse_transactions_maybank text pg = [] → pbbParse text pg = [] →
        rhbParse text pg = [] →
        auto_detect_and_parse cimbParse pbbParse rhbParse text pobj pg sf = []) := by
  refine ⟨?_, ?_, ?_, ?_, ?_, ?_⟩
  · by_cases h0 : (if cimbHint text then cimbParse pobj pg sf else []) = []
    · by_cases hm : parse_transactions_maybank text pg = []
      · by_cases hp : pbbParse text pg = []
        · by_cases hr : rhbParse text pg = []
          · left
            simp [auto_detect_and_parse, h0, hm, hp, hr]
          · right; right; right; right
            simp [auto_detect_and_parse, h0, hm, hp, hr]
        · right; right; right; left
          simp [auto_detect_and_parse, h0, hm, hp]
      · right; right; left
        simp [auto_detect_and_parse, h0, hm]
    · right; left
      by_cases hh : cimbHint text
      · rw [if_pos hh] at h0
        simp [auto_detect_and_parse, hh, h0]
      · exact absurd (by rw [if_neg hh]) h0
  · intro hh hne
    simp [auto_detect_and_parse, hh, hne]
  · intro hcimb hne
    have h0 : (if cimbHint text then cimbParse pobj pg sf else []) = [] := by
      rcases hcimb with hh | hc
      · rw [hh]; simp
      · rw [hc]; simp
    simp [auto_detect_and_parse, h0, hne]
  · intro hcimb hm hne
    have h0 : (if cimbHint text then cimbParse pobj pg sf else []) = [] := by
      rcases hcimb with hh | hc
      · rw [hh]; simp
      · rw [hc]; simp
    simp [auto_detect_and_parse, h0, hm, hne]
  · intro hcimb hm hp hne
    have h0 : (if cimbHint text then cimbParse pobj pg sf else []) = [] := by
      rcases hcimb with hh | hc
      · rw [hh]; simp
      · rw [hc]; simp
    simp [auto_detect_and_parse, h0, hm, hp, hne]
  · intro hcimb hm hp hr
    have h0 : (if cimbHint text then cimbParse pobj pg sf else []) = [] := by
      rcases hcimb with hh | hc
      · rw [hh]; simp
      · rw [hc]; simp
    simp [auto_detect_and_parse, h0, hm, hp, hr]

/-- Witness for C7: on a Maybank page without the CIMB keyword, auto-detect
returns exactly the Maybank recognizer's records. -/
theorem C7_priority_dispatch_witness :
    (cimbHint "02/06 BAR 1,000.00+ 10,318.33" = false ∨
      noParse3 "02/06 BAR 1,000.00+ 10,318.33" 2 "f.pdf" = []) ∧
    parse_transactions_maybank "02/06 BAR 1,000.00+ 10,318.33" 2 ≠ [] ∧
    auto_detect_and_parse noParse3 noParse2 noParse2
        "02/06 BAR 1,000.00+ 10,318.33" "02/06 BAR 1,000.00+ 10,318.33" 2 "f.pdf" =
      parse_transactions_maybank "02/06 BAR 1,000.00+ 10,318.33" 2 :=
  ⟨Or.inl (by decide), by decide,
    (C7_priority_dispatch noParse3 noParse2 noParse2
      "02/06 BAR 1,000.00+ 10,318.33" "02/06 BAR 1,000.00+ 10,318.33" 2 "f.pdf").2.2.1
      (Or.inl (by decide)) (by decide)⟩

/-- C10: every line of a Maybank page yields at most one record — the page
output is exactly the per-line `filterMap`; a blank (empty or
whitespace-only) line yields no record; the MTASB recognizer is tried first
and, when it matches, its record is kept and MBB is not consulted; MBB is
consulted exactly when MTASB does not match a non-blank line. -/
theorem C10_line_yields_at_most_one (text : String) (pg : Nat) (dy : String) :
    parse_transactions_maybank text pg dy =
      (pySplitlines text).filterMap (lineParse pg (extract_statement_year text dy))
    ∧ (∀ raw : String, pyStrip raw = "" →
        lineParse pg (extract_statement_year text dy) raw = none)
    ∧ (∀ (raw : String) (tx : Tx),
        parse_line_maybank_mtasb (pyStrip raw) pg (extract_statement_year text dy) =
          some tx →
        lineParse pg (extract_statement_year text dy) raw = some tx)
    ∧ (∀ raw : String,
        parse_line_maybank_mtasb (pyStrip raw) pg (extract_statement_year text dy) =
          none →
        lineParse pg (extract_statement_year text dy) raw =
          parse_line_maybank_mbb (pyStrip raw) pg) := by
  refine ⟨rfl, ?_, ?_, ?_⟩
  · intro raw hraw
    simp [lineParse, hraw]
  · intro raw tx h
    by_cases he : (pyStrip raw).data = []
    · exfalso
      simp only [parse_line_maybank_mtasb, he] at h
      simp [mtasbSearchAux] at h
    · simp only [lineParse, if_neg he, h]
  · intro raw h
    by_cases he : (pyStrip raw).data = []
    · have hmbb : parse_line_maybank_mbb (pyStrip raw) pg = none := by
        simp only [parse_line_maybank_mbb, he]
        simp [mbbSearchAux]
      simp [lineParse, he, hmbb]
    · simp only [lineParse, if_neg he, h]

/-- Witness for C10: a line matched by MTASB contributes exactly the MTASB
record. -/
theorem C10_line_yields_at_most_one_witness :
    (parse_line_maybank_mtasb (pyStrip "01/06 PAY 1.00+ 2.00") 1
        (extract_statement_year "01/06 PAY 1.00+ 2.00" "2025") =
      some (⟨"2025-06-01", "PAY", 0, 100, 200, 1, none⟩ : Tx)) ∧
    lineParse 1 (extract_statement_year "01/06 PAY 1.00+ 2.00" "2025")
        "01/06 PAY 1.00+ 2.00" =
      some (⟨"2025-06-01", "PAY", 0, 100, 200, 1, none⟩ : Tx) :=
  ⟨by decide,
    (C10_line_yields_at_most_one "01/06 PAY 1.00+ 2.00" 1 "2025").2.2.1
      "01/06 PAY 1.00+ 2.00" (⟨"2025-06-01", "PAY", 0, 100, 200, 1, none⟩ : Tx)
      (by decide)⟩
